import Mathlib

/-
Verification development for the floating overlay window manager of the
tardquest standalone shell.

The embedding models each overlay window ("panel") as a record of the
observable DOM state the scripts read and write: the inline display value,
the inline left and top pixel positions, the rendered footprint (the width
and height reported by getBoundingClientRect), the inline zIndex value,
the per-panel loaded flag, and the list of iframe ids currently inside the
content container.  Pixel values are Int (JavaScript numbers used here are
always integers).  The global FocusStack counter (currentZIndex in
windowfocus.js) is threaded explicitly through the operations that touch
it.

Modelling notes, faithful to the source:
  - tardboard.js lines 9 to 33: the leaderboard dropdown handler shows only
    when the inline display is exactly the string none; anything else
    (including the initial empty string) takes the hide branch.
  - the tardtest and apitest toggles treat both none and the empty string
    as hidden.
  - the parseInt fallbacks in the clamp functions (rect.left, 100, 150)
    are not modelled separately: the model keeps the effective pixel
    position in the left and top fields, which every show path assigns
    before clamping.
  - checkPassword in devtools.js writes display, position and zIndex
    directly and appends an iframe only when the content container has
    none; it never touches the per-panel loaded flag.
-/

namespace TardQuest

/-- Viewport dimensions as reported by window.innerWidth and
window.innerHeight. -/
structure Env where
  innerWidth : Int
  innerHeight : Int
  deriving DecidableEq

/-- Observable state of one overlay window element: inline display value,
inline left and top, rendered footprint, inline zIndex, the per-panel
loaded flag, and the iframe ids inside the content container. -/
structure Win where
  display : String
  left : Int
  top : Int
  width : Int
  height : Int
  zIndex : Int
  loaded : Bool
  content : List String
  deriving DecidableEq

/-- Clamp arithmetic of clampTardboardPosition, tardboard.js lines 90 to
111: constants border 4, titlebarHeight 20, toolbarHeight 25, upper bound
(min) applied before lower bound (max). -/
def clampTardboardCore (left top width height parentW parentH : Int) : Int × Int :=
  let border : Int := 4
  let titlebarHeight : Int := 20
  let toolbarHeight : Int := 25
  let topOffset := titlebarHeight + toolbarHeight
  let maxLeft := parentW - width - border
  let maxTop := parentH - height - border
  let clampedLeft := max border (min left maxLeft)
  let clampedTop := max (topOffset + border) (min top maxTop)
  (clampedLeft, clampedTop)

/-- Clamp arithmetic of clampTardTestPosition, unnamed part_004 lines 111
to 131. -/
def clampTardTestCore (left top width height parentW parentH : Int) : Int × Int :=
  let border : Int := 4
  let titlebarHeight : Int := 20
  let toolbarHeight : Int := 25
  let topOffset := titlebarHeight + toolbarHeight
  let maxLeft := parentW - width - border
  let maxTop := parentH - height - border
  let clampedLeft := max border (min left maxLeft)
  let clampedTop := max (topOffset + border) (min top maxTop)
  (clampedLeft, clampedTop)

/-- Clamp arithmetic of clampAPITestPosition, tardboard.js lines 223 to
243. -/
def clampAPITestCore (left top width height parentW parentH : Int) : Int × Int :=
  let border : Int := 4
  let titlebarHeight : Int := 20
  let toolbarHeight : Int := 25
  let topOffset := titlebarHeight + toolbarHeight
  let maxLeft := parentW - width - border
  let maxTop := parentH - height - border
  let clampedLeft := max border (min left maxLeft)
  let clampedTop := max (topOffset + border) (min top maxTop)
  (clampedLeft, clampedTop)

/-- clampTardboardPosition applied to the leaderboard window state. -/
def clampTardboardPosition (env : Env) (w : Win) : Win :=
  let p := clampTardboardCore w.left w.top w.width w.height env.innerWidth env.innerHeight
  { w with left := p.1, top := p.2 }

/-- clampTardTestPosition applied to the tardtest window state. -/
def clampTardTestPosition (env : Env) (w : Win) : Win :=
  let p := clampTardTestCore w.left w.top w.width w.height env.innerWidth env.innerHeight
  { w with left := p.1, top := p.2 }

/-- clampAPITestPosition applied to the apitest window state. -/
def clampAPITestPosition (env : Env) (w : Win) : Win :=
  let p := clampAPITestCore w.left w.top w.width w.height env.innerWidth env.innerHeight
  { w with left := p.1, top := p.2 }

/-- bringWindowToFront from windowfocus.js lines 3 to 6: increment the
global counter and assign the new value as the zIndex of the element. -/
def bringWindowToFront (currentZIndex : Int) (w : Win) : Int × Win :=
  let c := currentZIndex + 1
  (c, { w with zIndex := c })

/-- Leaderboard dropdown toggle, tardboard.js lines 9 to 33 (the branch
for the value tardboard).  Shows only when the inline display is exactly
none; lazily appends the iframe when loaded is false; clamps; otherwise
hides, clears the content container and resets loaded.  It never touches
the focus counter or the zIndex. -/
def onlineSelectChange (env : Env) (currentZIndex : Int) (w : Win) : Int × Win :=
  if w.display = "none" then
    let w1 := { w with display := "flex" }
    let w2 :=
      if !w1.loaded then
        { w1 with content := w1.content ++ ["leaderboardIframe"], loaded := true }
      else w1
    (currentZIndex, clampTardboardPosition env w2)
  else
    (currentZIndex, { w with display := "none", content := [], loaded := false })

/-- Dropdown dispatch of tardboard.js line 10: any value other than
tardboard leaves the leaderboard state untouched. -/
def onlineSelectDispatch (env : Env) (currentZIndex : Int) (value : String) (w : Win) :
    Int × Win :=
  if value = "tardboard" then onlineSelectChange env currentZIndex w else (currentZIndex, w)

/-- Close button handler, tardboard.js lines 36 to 40. -/
def closeLeaderboardClick (w : Win) : Win :=
  { w with display := "none", content := [], loaded := false }

/-- toggleTardTest, unnamed part_004 lines 13 to 43.  Hidden means display
none or the empty string.  The show branch sets display, a fixed position
and a literal zIndex of 2000, then calls bringWindowToFront (overwriting
that literal with the new counter value), lazily appends the iframe, and
clamps. -/
def toggleTardTest (env : Env) (currentZIndex : Int) (w : Win) : Int × Win :=
  if w.display = "none" ∨ w.display = "" then
    let w1 := { w with display := "flex", left := 100, top := 100, zIndex := 2000 }
    let p := bringWindowToFront currentZIndex w1
    let w2 :=
      if !p.2.loaded then
        { p.2 with content := p.2.content ++ ["tardtestIframe"], loaded := true }
      else p.2
    (p.1, clampTardTestPosition env w2)
  else
    (currentZIndex, { w with display := "none", content := [], loaded := false })

/-- Close button handler, unnamed part_004 lines 46 to 50. -/
def closeTardtestClick (w : Win) : Win :=
  { w with display := "none", content := [], loaded := false }

/-- toggleAPITest, tardboard.js lines 130 to 155.  Hidden means display
none or the empty string.  The show branch sets display, a fixed position
and a literal zIndex of 2000 (it never calls bringWindowToFront), lazily
appends the iframe, and clamps. -/
def toggleAPITest (env : Env) (currentZIndex : Int) (w : Win) : Int × Win :=
  if w.display = "none" ∨ w.display = "" then
    let w1 := { w with display := "flex", left := 150, top := 150, zIndex := 2000 }
    let w2 :=
      if !w1.loaded then
        { w1 with content := w1.content ++ ["apitestIframe"], loaded := true }
      else w1
    (currentZIndex, clampAPITestPosition env w2)
  else
    (currentZIndex, { w with display := "none", content := [], loaded := false })

/-- Close button handler, tardboard.js lines 158 to 162. -/
def closeApitestClick (w : Win) : Win :=
  { w with display := "none", content := [], loaded := false }

/-- The tardtest branch of checkPassword, devtools.js lines 41 to 60, with
the window and content elements present: unconditionally shows the window
at the fixed position with zIndex 2001 and appends an iframe only when the
content container holds none.  It never touches the per-panel loaded
flag. -/
def checkPasswordTardtestShow (w : Win) : Win :=
  let w1 := { w with display := "flex", left := 100, top := 100, zIndex := 2001 }
  if w1.content.isEmpty then { w1 with content := w1.content ++ ["tardtestIframe"] } else w1

/-- The apitest branch of checkPassword, devtools.js lines 62 to 81, with
the window and content elements present. -/
def checkPasswordApitestShow (w : Win) : Win :=
  let w1 := { w with display := "flex", left := 150, top := 150, zIndex := 2001 }
  if w1.content.isEmpty then { w1 with content := w1.content ++ ["apitestIframe"] } else w1

/-- FocusStack state from windowfocus.js: the single global counter and
the last zIndex assigned to each window id. -/
structure FocusSys where
  currentZIndex : Int
  zOf : String → Int

/-- bringWindowToFront acting on the FocusStack state for a given window
id: increment the counter, assign the new value to that id. -/
def bringToFrontId (s : FocusSys) (id : String) : FocusSys :=
  { currentZIndex := s.currentZIndex + 1,
    zOf := fun j => if j = id then s.currentZIndex + 1 else s.zOf j }

/-- The sequence of zIndex values assigned by a sequence of
bringWindowToFront calls, in call order. -/
def focusTrace (s : FocusSys) : List String → List Int
  | [] => []
  | id :: rest => (bringToFrontId s id).currentZIndex :: focusTrace (bringToFrontId s id) rest

/-- Per-panel drag variables, tardboard.js line 43. -/
structure DragVars where
  isDragging : Bool
  dragOffsetX : Int
  dragOffsetY : Int
  deriving DecidableEq

/-- Which application-scope drag listeners are currently registered on
window. -/
structure Listeners where
  moveOn : Bool
  upOn : Bool
  deriving DecidableEq

/-- State of the leaderboard drag subsystem: the window element, the drag
variables, the registered window-scope listeners, and whether the titlebar
holds pointer capture. -/
structure LBSys where
  win : Win
  drag : DragVars
  listeners : Listeners
  captured : Bool
  deriving DecidableEq

/-- Pointer events reaching the drag subsystem.  down carries whether the
event target is the close button; captureLoss stands for abnormal loss of
pointer capture (pointercancel or lostpointercapture), for which the
source registers no handler. -/
inductive PEvent where
  | down (onCloseBtn : Bool) (x y : Int)
  | move (x y : Int)
  | up
  | captureLoss
  deriving DecidableEq

/-- Titlebar pointerdown handler, tardboard.js lines 45 to 57: unless the
target is the close button, start dragging, record the offsets from the
current window corner, take pointer capture, and register the
window-scope move and up listeners. -/
def leaderboardPointerdown (onCloseBtn : Bool) (x y : Int) (s : LBSys) : LBSys :=
  if onCloseBtn then s
  else
    { s with
      drag := { isDragging := true, dragOffsetX := x - s.win.left, dragOffsetY := y - s.win.top },
      captured := true,
      listeners := { moveOn := true, upOn := true } }

/-- dragMove, tardboard.js lines 59 to 80: while dragging, move the window
to the clamped candidate position. -/
def dragMove (env : Env) (x y : Int) (s : LBSys) : LBSys :=
  if s.drag.isDragging then
    let left := x - s.drag.dragOffsetX
    let top := y - s.drag.dragOffsetY
    let border : Int := 4
    let titlebarHeight : Int := 20
    let toolbarHeight : Int := 25
    let topOffset := titlebarHeight + toolbarHeight
    let maxLeft := env.innerWidth - s.win.width - border
    let maxTop := env.innerHeight - s.win.height - border
    let clampedLeft := max border (min left maxLeft)
    let clampedTop := max (topOffset + border) (min top maxTop)
    { s with win := { s.win with left := clampedLeft, top := clampedTop } }
  else s

/-- dragEnd, tardboard.js lines 82 to 88: stop dragging, release pointer
capture, remove both window-scope listeners. -/
def dragEnd (s : LBSys) : LBSys :=
  { s with
    drag := { s.drag with isDragging := false },
    captured := false,
    listeners := { moveOn := false, upOn := false } }

/-- Event dispatch for the leaderboard drag subsystem.  The titlebar
pointerdown listener is statically registered; dragMove and dragEnd run
only while their window-scope listeners are registered; no handler at all
is registered for capture loss, so that event changes nothing. -/
def lbStep (env : Env) (s : LBSys) : PEvent → LBSys
  | .down b x y => leaderboardPointerdown b x y s
  | .move x y => if s.listeners.moveOn then dragMove env x y s else s
  | .up => if s.listeners.upOn then dragEnd s else s
  | .captureLoss => s

/-- Run a sequence of pointer events through the drag subsystem. -/
def lbRun (env : Env) (s : LBSys) (es : List PEvent) : LBSys :=
  List.foldl (lbStep env) s es

/-- toggleTardTest when the tardtestWindow element may be absent: line 15
of part_004 reads tardtestWindow.style.display, which raises a TypeError
on a missing element. -/
def toggleTardTestOpt (env : Env) (currentZIndex : Int) :
    Option Win → Except String (Int × Win)
  | none => Except.error "TypeError"
  | some w => Except.ok (toggleTardTest env currentZIndex w)

/-- clampTardboardPosition when the leaderboardWindow element may be
absent: line 92 of tardboard.js reads win.getBoundingClientRect on the
element, which raises a TypeError on a missing element. -/
def clampTardboardPositionOpt (env : Env) : Option Win → Except String Win
  | none => Except.error "TypeError"
  | some w => Except.ok (clampTardboardPosition env w)

/-- setupWindowFocus, windowfocus.js lines 9 to 16: the element lookup is
guarded, so a missing element means no listener is attached and no error;
the result records whether the focus listener was attached. -/
def setupWindowFocus : Option Win → Except String Bool
  | none => Except.ok false
  | some _ => Except.ok true

/-- The tardtest branch of checkPassword when the tardtestWindow element
may be absent, devtools.js lines 44 to 60: the branch is guarded, so a
missing element is a silent no-op. -/
def checkPasswordTardtestOpt : Option Win → Except String (Option Win)
  | none => Except.ok none
  | some w => Except.ok (some (checkPasswordTardtestShow w))

/-- A hidden leaderboard-shaped panel used as a concrete sample state. -/
def sampleHidden : Win :=
  { display := "none", left := 100, top := 100, width := 200, height := 150,
    zIndex := 1000, loaded := false, content := [] }

/-- A panel in its initial state: no inline display value set, nothing
loaded. -/
def initialPanel : Win :=
  { display := "", left := 100, top := 100, width := 200, height := 150,
    zIndex := 1000, loaded := false, content := [] }

/-- A visible tardtest panel with its iframe instantiated. -/
def visibleTardtest : Win :=
  { display := "flex", left := 100, top := 100, width := 200, height := 150,
    zIndex := 2000, loaded := true, content := ["tardtestIframe"] }

/-- Initial state of the leaderboard drag subsystem with the window
visible at position 100 100 and footprint 200 by 150. -/
def lbInitial : LBSys :=
  { win := { display := "flex", left := 100, top := 100, width := 200, height := 150,
             zIndex := 2000, loaded := true, content := ["leaderboardIframe"] },
    drag := { isDragging := false, dragOffsetX := 0, dragOffsetY := 0 },
    listeners := { moveOn := false, upOn := false },
    captured := false }

lemma focusTrace_mem_gt (ids : List String) :
    ∀ (s : FocusSys), ∀ v ∈ focusTrace s ids, s.currentZIndex < v := by
  induction ids with
  | nil => intro s v hv; simp [focusTrace] at hv
  | cons id rest ih =>
      intro s v hv
      simp only [focusTrace, List.mem_cons] at hv
      rcases hv with h | h
      · subst h
        simp only [bringToFrontId]
        omega
      · have h2 := ih (bringToFrontId s id) v h
        simp only [bringToFrontId] at h2
        omega

lemma focusTrace_pairwise (ids : List String) :
    ∀ (s : FocusSys), List.Pairwise (fun a b => a < b) (focusTrace s ids) := by
  induction ids with
  | nil => intro s; simp [focusTrace]
  | cons id rest ih =>
      intro s
      simp only [focusTrace, List.pairwise_cons]
      refine ⟨fun v hv => ?_, ih _⟩
      have h2 := focusTrace_mem_gt rest (bringToFrontId s id) v hv
      exact h2

/-- Claim C10: the three hand-duplicated clamp implementations for the
leaderboard, tardtest and apitest windows are extensionally equal: for
every candidate left, top, footprint and viewport size they return
identical clamped positions, and all three compute with border 4, a top
offset of titlebarHeight 20 plus toolbarHeight 25, and the lower bound
max applied after the upper bound min.  The only difference between the
source functions is the default position fallback, which lies outside the
quantified candidate inputs. -/
theorem clamp_implementations_agree (l t wdt hgt pw ph : Int) :
    clampTardboardCore l t wdt hgt pw ph = clampTardTestCore l t wdt hgt pw ph ∧
    clampTardboardCore l t wdt hgt pw ph = clampAPITestCore l t wdt hgt pw ph ∧
    clampTardboardCore l t wdt hgt pw ph =
      (max 4 (min l (pw - wdt - 4)), max ((20 + 25) + 4) (min t (ph - hgt - 4))) :=
  ⟨rfl, rfl, rfl⟩

/-- Claim C7: whenever maxLeft falls below border the clamped left pins to
border 4, whenever maxTop falls below topOffset plus border the clamped
top pins to topOffset plus border 49, so a viewport smaller than the panel
footprint pins the panel to the corner (4, 49); the result is computed
deterministically by total arithmetic and its coordinates never fall below
4 and 49, hence are never negative. -/
theorem clamp_degenerate_pins (l t wdt hgt pw ph : Int) :
    (pw - wdt - 4 < 4 → (clampTardboardCore l t wdt hgt pw ph).1 = 4) ∧
    (ph - hgt - 4 < 45 + 4 → (clampTardboardCore l t wdt hgt pw ph).2 = 45 + 4) ∧
    4 ≤ (clampTardboardCore l t wdt hgt pw ph).1 ∧
    45 + 4 ≤ (clampTardboardCore l t wdt hgt pw ph).2 := by
  simp only [clampTardboardCore]
  refine ⟨fun h => ?_, fun h => ?_, ?_, ?_⟩ <;> omega

/-- Witness for claim C7: a 150 by 150 viewport with a 200 by 150 panel
pins the position to (4, 49), which is border and topOffset plus
border. -/
theorem clamp_degenerate_pins_witness :
    clampTardboardCore 100 100 200 150 150 150 = (4, 49) := by
  have h := clamp_degenerate_pins 100 100 200 150 150 150
  exact Prod.ext_iff.mpr ⟨h.1 (by decide), h.2.1 (by decide)⟩

/-- Claim C3: every bringWindowToFront call increments the single global
counter and assigns the new value as the zIndex of the target window, so
over any sequence of calls the assigned zIndex values are pairwise
strictly increasing in call order, regardless of targets; no value is
reused or decremented. -/
theorem bringToFront_strictly_increasing (s : FocusSys) (ids : List String) :
    List.Pairwise (fun a b => a < b) (focusTrace s ids) ∧
    (∀ id, (bringToFrontId s id).currentZIndex = s.currentZIndex + 1 ∧
           (bringToFrontId s id).zOf id = s.currentZIndex + 1) ∧
    (∀ c w, (bringWindowToFront c w).1 = c + 1 ∧ (bringWindowToFront c w).2.zIndex = c + 1) := by
  refine ⟨focusTrace_pairwise ids s, fun id => ?_, fun c w => ⟨rfl, rfl⟩⟩
  simp [bringToFrontId]

/-- Claim C2, counterexample: for the leaderboard panel at (100, 100)
with footprint 200 by 150 in an 800 by 600 viewport, pointer-down at
(120, 110) followed by pointer-move to (700, 50) yields position
(596, 49), not the (596, 47) stated by the claim, because the code uses
topOffset 45 (titlebarHeight 20 plus toolbarHeight 25), so the lower top
bound is 49. -/
theorem drag_roundtrip_counterexample :
    ((lbRun ⟨800, 600⟩ lbInitial [.down false 120 110, .move 700 50]).win.left,
     (lbRun ⟨800, 600⟩ lbInitial [.down false 120 110, .move 700 50]).win.top) ≠ (596, 47) ∧
    ((lbRun ⟨800, 600⟩ lbInitial [.down false 120 110, .move 700 50]).win.left,
     (lbRun ⟨800, 600⟩ lbInitial [.down false 120 110, .move 700 50]).win.top) = (596, 49) := by
  decide

/-- Claim C2 as amended: after a pointer-down on the titlebar (not on the
close button) at (x0, y0) while the panel corner is at (left, top),
recording the offset, followed by a pointer-move to (x1, y1), the panel
position equals the clamp of (x1 - offsetX, y1 - offsetY) under the
current viewport; in the concrete example the final position is
(596, 49). -/
theorem drag_roundtrip_amended :
    (∀ (env : Env) (w : Win) (d : DragVars) (x0 y0 x1 y1 : Int),
      ((lbRun env ⟨w, d, ⟨false, false⟩, false⟩ [.down false x0 y0, .move x1 y1]).win.left,
       (lbRun env ⟨w, d, ⟨false, false⟩, false⟩ [.down false x0 y0, .move x1 y1]).win.top) =
        clampTardboardCore (x1 - (x0 - w.left)) (y1 - (y0 - w.top)) w.width w.height
          env.innerWidth env.innerHeight) ∧
    ((lbRun ⟨800, 600⟩ lbInitial [.down false 120 110, .move 700 50]).win.left,
     (lbRun ⟨800, 600⟩ lbInitial [.down false 120 110, .move 700 50]).win.top) = (596, 49) := by
  refine ⟨fun env w d x0 y0 x1 y1 => ?_, by decide⟩
  rfl

/-- Claim C8: the source cleans up only on a normal pointer-up (dragEnd
removes both window-scope listeners and releases capture), but registers
no handler for abnormal pointer-capture loss, so after a pointer-down
followed by capture loss the window-scope move and up listeners remain
registered and the drag flag remains set: the drag state machine leaks its
application-scope listeners on the abnormal exit path. -/
theorem capture_loss_leaks_listeners :
    (lbRun ⟨800, 600⟩ lbInitial [.down false 120 110, .captureLoss]).listeners.moveOn = true ∧
    (lbRun ⟨800, 600⟩ lbInitial [.down false 120 110, .captureLoss]).listeners.upOn = true ∧
    (lbRun ⟨800, 600⟩ lbInitial [.down false 120 110, .captureLoss]).drag.isDragging = true ∧
    (lbRun ⟨800, 600⟩ lbInitial [.down false 120 110, .captureLoss]).captured = true ∧
    (lbRun ⟨800, 600⟩ lbInitial [.down false 120 110, .up]).listeners.moveOn = false ∧
    (lbRun ⟨800, 600⟩ lbInitial [.down false 120 110, .up]).listeners.upOn = false ∧
    (lbRun ⟨800, 600⟩ lbInitial [.down false 120 110, .up]).captured = false := by
  decide

lemma toggleTardTest_shows (env : Env) (z : Int) (w : Win)
    (h : w.display = "none" ∨ w.display = "") :
    (toggleTardTest env z w).2.display = "flex" := by
  cases hl : w.loaded <;> rcases h with h | h <;>
    simp [toggleTardTest, clampTardTestPosition, clampTardTestCore, bringWindowToFront, h, hl]

lemma toggleTardTest_hides (env : Env) (z : Int) (w : Win)
    (h : ¬(w.display = "none" ∨ w.display = "")) :
    (toggleTardTest env z w).2.display = "none" := by
  simp only [toggleTardTest, if_neg h]

lemma toggleAPITest_shows (env : Env) (z : Int) (w : Win)
    (h : w.display = "none" ∨ w.display = "") :
    (toggleAPITest env z w).2.display = "flex" := by
  cases hl : w.loaded <;> rcases h with h | h <;>
    simp [toggleAPITest, clampAPITestPosition, clampAPITestCore, h, hl]

lemma toggleAPITest_hides (env : Env) (z : Int) (w : Win)
    (h : ¬(w.display = "none" ∨ w.display = "")) :
    (toggleAPITest env z w).2.display = "none" := by
  simp only [toggleAPITest, if_neg h]

lemma onlineSelectChange_shows (env : Env) (z : Int) (w : Win)
    (h : w.display = "none") :
    (onlineSelectChange env z w).2.display = "flex" := by
  cases hl : w.loaded <;>
    simp [onlineSelectChange, clampTardboardPosition, clampTardboardCore, h, hl]

lemma onlineSelectChange_hides (env : Env) (z : Int) (w : Win)
    (h : ¬ w.display = "none") :
    (onlineSelectChange env z w).2.display = "none" := by
  simp only [onlineSelectChange, if_neg h]

/-- Claim C1, counterexample: the leaderboard toggle on the initial state,
where no inline display value has been set (the empty string), takes the
hide branch and leaves the panel hidden instead of showing it; and the
unlock-gate path (checkPassword) applied to an already visible tardtest
panel leaves it visible instead of hiding it, so that path is not a
toggle. -/
theorem open_toggle_counterexample :
    initialPanel.display = "" ∧
    (onlineSelectChange ⟨800, 600⟩ 2000 initialPanel).2.display = "none" ∧
    visibleTardtest.display = "flex" ∧
    (checkPasswordTardtestShow visibleTardtest).display = "flex" := by
  decide

/-- Claim C1 as amended: the direct-selection toggles are true toggles on
their own hidden tests: the tardtest and apitest toggles treat inline
display none or the empty string as hidden and show exactly then, while
the leaderboard toggle shows exactly when the inline display is the
literal none (the initial empty string takes the hide branch); the
unlock-gate path (checkPassword) is not a toggle and always leaves the
panel visible; and two consecutive toggle calls starting from a hidden
panel return it to hidden. -/
theorem open_toggle_amended :
    (∀ (env : Env) (z : Int) (w : Win),
      ((toggleTardTest env z w).2.display = "flex" ↔ (w.display = "none" ∨ w.display = "")) ∧
      ((toggleAPITest env z w).2.display = "flex" ↔ (w.display = "none" ∨ w.display = "")) ∧
      ((onlineSelectChange env z w).2.display = "flex" ↔ w.display = "none") ∧
      (checkPasswordTardtestShow w).display = "flex" ∧
      (checkPasswordApitestShow w).display = "flex") ∧
    (∀ (env : Env) (z : Int) (w : Win),
      (toggleTardTest env (toggleTardTest env z { w with display := "none" }).1
        (toggleTardTest env z { w with display := "none" }).2).2.display = "none" ∧
      (toggleTardTest env (toggleTardTest env z { w with display := "" }).1
        (toggleTardTest env z { w with display := "" }).2).2.display = "none" ∧
      (toggleAPITest env (toggleAPITest env z { w with display := "none" }).1
        (toggleAPITest env z { w with display := "none" }).2).2.display = "none" ∧
      (toggleAPITest env (toggleAPITest env z { w with display := "" }).1
        (toggleAPITest env z { w with display := "" }).2).2.display = "none" ∧
      (onlineSelectChange env (onlineSelectChange env z { w with display := "none" }).1
        (onlineSelectChange env z { w with display := "none" }).2).2.display = "none") := by
  constructor
  · intro env z w
    refine ⟨?_, ?_, ?_, ?_, ?_⟩
    · by_cases h1 : w.display = "none" <;> by_cases h2 : w.display = "" <;>
        cases hl : w.loaded <;>
        simp [toggleTardTest, clampTardTestPosition, clampTardTestCore,
          bringWindowToFront, h1, h2, hl]
    · by_cases h1 : w.display = "none" <;> by_cases h2 : w.display = "" <;>
        cases hl : w.loaded <;>
        simp [toggleAPITest, clampAPITestPosition, clampAPITestCore, h1, h2, hl]
    · by_cases h1 : w.display = "none" <;> cases hl : w.loaded <;>
        simp [onlineSelectChange, clampTardboardPosition, clampTardboardCore, h1, hl]
    · simp [checkPasswordTardtestShow, apply_ite Win.display]
    · simp [checkPasswordApitestShow, apply_ite Win.display]
  · intro env z w
    have hTTn := toggleTardTest_shows env z { w with display := "none" } (Or.inl rfl)
    have hTTe := toggleTardTest_shows env z { w with display := "" } (Or.inr rfl)
    have hATn := toggleAPITest_shows env z { w with display := "none" } (Or.inl rfl)
    have hATe := toggleAPITest_shows env z { w with display := "" } (Or.inr rfl)
    have hLB := onlineSelectChange_shows env z { w with display := "none" } rfl
    refine ⟨toggleTardTest_hides _ _ _ (by simp [hTTn]),
            toggleTardTest_hides _ _ _ (by simp [hTTe]),
            toggleAPITest_hides _ _ _ (by simp [hATn]),
            toggleAPITest_hides _ _ _ (by simp [hATe]),
            onlineSelectChange_hides _ _ _ (by simp [hLB])⟩

/-- Claim C4, counterexample: showing the apitest panel via its toggle
writes zIndex 2000 directly while the FocusStack counter stays 3000 (a
FocusStack write would have produced 3001), and the unlock-gate path
writes zIndex 2001 directly: stacking values are assigned outside
FocusStack. -/
theorem zindex_direct_write_counterexample :
    sampleHidden.zIndex = 1000 ∧
    (toggleAPITest ⟨800, 600⟩ 3000 sampleHidden).2.zIndex = 2000 ∧
    (toggleAPITest ⟨800, 600⟩ 3000 sampleHidden).1 = 3000 ∧
    (checkPasswordTardtestShow sampleHidden).zIndex = 2001 := by
  decide

/-- Claim C4 as amended: only the leaderboard panel has its zIndex written
exclusively by FocusStack (its toggle never touches the zIndex); the show
branch of the apitest toggle assigns the literal 2000 directly without
touching the counter, the show branch of the tardtest toggle assigns the
literal 2000 and then immediately overwrites it through bringWindowToFront
with the incremented counter, and the unlock-gate path assigns the literal
2001 directly. -/
theorem zindex_ownership_amended (env : Env) (z : Int) (w : Win)
    (h : w.display = "none") :
    (toggleAPITest env z w).2.zIndex = 2000 ∧
    (toggleAPITest env z w).1 = z ∧
    (toggleTardTest env z w).2.zIndex = z + 1 ∧
    (toggleTardTest env z w).1 = z + 1 ∧
    (checkPasswordTardtestShow w).zIndex = 2001 ∧
    (checkPasswordApitestShow w).zIndex = 2001 ∧
    (onlineSelectChange env z w).2.zIndex = w.zIndex ∧
    (onlineSelectChange env z w).1 = z := by
  cases hl : w.loaded <;>
    simp [toggleAPITest, toggleTardTest, onlineSelectChange, checkPasswordTardtestShow,
      checkPasswordApitestShow, clampAPITestPosition, clampAPITestCore,
      clampTardTestPosition, clampTardTestCore, clampTardboardPosition, clampTardboardCore,
      bringWindowToFront, apply_ite Win.zIndex, h, hl]

/-- Witness for the amended claim C4 at a concrete hidden panel. -/
theorem zindex_ownership_amended_witness :
    (toggleAPITest ⟨800, 600⟩ 5000 sampleHidden).2.zIndex = 2000 ∧
    (toggleTardTest ⟨800, 600⟩ 5000 sampleHidden).2.zIndex = 5001 ∧
    (onlineSelectChange ⟨800, 600⟩ 5000 sampleHidden).2.zIndex = 1000 := by
  have h := zindex_ownership_amended ⟨800, 600⟩ 5000 sampleHidden rfl
  exact ⟨h.1, h.2.2.1, h.2.2.2.2.2.2.1⟩

/-- Claim C5, counterexample: the show branch of the leaderboard toggle
leaves both the FocusStack counter and the panel zIndex untouched, and the
show branch of the apitest toggle leaves the counter untouched while
writing the literal 2000: neither invokes bringWindowToFront. -/
theorem show_bringToFront_counterexample :
    (onlineSelectChange ⟨800, 600⟩ 2000 sampleHidden).2.display = "flex" ∧
    (onlineSelectChange ⟨800, 600⟩ 2000 sampleHidden).1 = 2000 ∧
    (onlineSelectChange ⟨800, 600⟩ 2000 sampleHidden).2.zIndex = 1000 ∧
    (toggleAPITest ⟨800, 600⟩ 2000 sampleHidden).2.display = "flex" ∧
    (toggleAPITest ⟨800, 600⟩ 2000 sampleHidden).1 = 2000 := by
  decide

/-- Claim C5 as amended: of the three panels only the tardtest toggle
calls bringWindowToFront on its show branch (counter and zIndex become the
incremented value); the leaderboard show branch touches neither the
counter nor the zIndex, and the apitest show branch assigns the fixed
2000 without incrementing the counter; all three show branches lazily
append the iframe when loaded is false and clamp the position. -/
theorem show_path_effects_amended (env : Env) (z : Int) (w : Win)
    (h : w.display = "none") :
    ((onlineSelectChange env z w).1 = z ∧
     (onlineSelectChange env z w).2.zIndex = w.zIndex ∧
     (w.loaded = false →
        (onlineSelectChange env z w).2.content = w.content ++ ["leaderboardIframe"] ∧
        (onlineSelectChange env z w).2.loaded = true) ∧
     ((onlineSelectChange env z w).2.left, (onlineSelectChange env z w).2.top) =
        clampTardboardCore w.left w.top w.width w.height env.innerWidth env.innerHeight) ∧
    ((toggleTardTest env z w).1 = z + 1 ∧
     (toggleTardTest env z w).2.zIndex = z + 1 ∧
     (w.loaded = false →
        (toggleTardTest env z w).2.content = w.content ++ ["tardtestIframe"] ∧
        (toggleTardTest env z w).2.loaded = true) ∧
     ((toggleTardTest env z w).2.left, (toggleTardTest env z w).2.top) =
        clampTardTestCore 100 100 w.width w.height env.innerWidth env.innerHeight) ∧
    ((toggleAPITest env z w).1 = z ∧
     (toggleAPITest env z w).2.zIndex = 2000 ∧
     (w.loaded = false →
        (toggleAPITest env z w).2.content = w.content ++ ["apitestIframe"] ∧
        (toggleAPITest env z w).2.loaded = true) ∧
     ((toggleAPITest env z w).2.left, (toggleAPITest env z w).2.top) =
        clampAPITestCore 150 150 w.width w.height env.innerWidth env.innerHeight) := by
  cases hl : w.loaded <;>
    simp [onlineSelectChange, toggleTardTest, toggleAPITest, clampTardboardPosition,
      clampTardTestPosition, clampAPITestPosition, bringWindowToFront, h, hl]

/-- Witness for the amended claim C5 at a concrete hidden unloaded
panel. -/
theorem show_path_effects_amended_witness :
    (onlineSelectChange ⟨800, 600⟩ 2000 sampleHidden).1 = 2000 ∧
    (onlineSelectChange ⟨800, 600⟩ 2000 sampleHidden).2.content = [] ++ ["leaderboardIframe"] ∧
    (toggleTardTest ⟨800, 600⟩ 2000 sampleHidden).1 = 2001 ∧
    (toggleTardTest ⟨800, 600⟩ 2000 sampleHidden).2.content = [] ++ ["tardtestIframe"] ∧
    (toggleAPITest ⟨800, 600⟩ 2000 sampleHidden).1 = 2000 ∧
    (toggleAPITest ⟨800, 600⟩ 2000 sampleHidden).2.content = [] ++ ["apitestIframe"] := by
  have h := show_path_effects_amended ⟨800, 600⟩ 2000 sampleHidden rfl
  exact ⟨h.1.1, (h.1.2.2.1 rfl).1, h.2.1.1, (h.2.1.2.2.1 rfl).1, h.2.2.1, (h.2.2.2.2.1 rfl).1⟩

/-- Claim C6, counterexample: the unlock-gate show path appends the
iframe to the content container but never sets the per-panel loaded flag,
so after it runs on the initial state the container is non-empty while
loaded is still false, violating the loaded-iff-non-empty invariant. -/
theorem loaded_invariant_counterexample :
    (checkPasswordTardtestShow initialPanel).content = ["tardtestIframe"] ∧
    (checkPasswordTardtestShow initialPanel).loaded = false ∧
    ¬(((checkPasswordTardtestShow initialPanel).loaded = true) ↔
      ((checkPasswordTardtestShow initialPanel).content ≠ [])) := by
  decide

/-- Claim C6 as amended: the loaded-iff-non-empty-container invariant is
preserved by the three toggles and established by every close handler and
every hide branch (each destroys the content and resets loaded), and a
show after a hide appends a fresh iframe; but the unlock-gate show path
(checkPassword) appends content without setting the loaded flag, guarding
duplication by inspecting the container instead, so after it the container
can be non-empty while loaded is false. -/
theorem loaded_invariant_amended (env : Env) (z : Int) (w : Win) :
    ((w.loaded = true ↔ w.content ≠ []) →
       (((onlineSelectChange env z w).2.loaded = true ↔
           (onlineSelectChange env z w).2.content ≠ []) ∧
        ((toggleTardTest env z w).2.loaded = true ↔
           (toggleTardTest env z w).2.content ≠ []) ∧
        ((toggleAPITest env z w).2.loaded = true ↔
           (toggleAPITest env z w).2.content ≠ []))) ∧
    ((closeLeaderboardClick w).content = [] ∧ (closeLeaderboardClick w).loaded = false) ∧
    ((closeTardtestClick w).content = [] ∧ (closeTardtestClick w).loaded = false) ∧
    ((closeApitestClick w).content = [] ∧ (closeApitestClick w).loaded = false) ∧
    (toggleTardTest env z (closeTardtestClick w)).2.content = ["tardtestIframe"] ∧
    ((checkPasswordTardtestShow w).loaded = w.loaded ∧
     (checkPasswordTardtestShow w).content ≠ []) := by
  refine ⟨fun hinv => ?_, by simp [closeLeaderboardClick], by simp [closeTardtestClick],
    by simp [closeApitestClick], ?_, ?_, ?_⟩
  · refine ⟨?_, ?_, ?_⟩ <;>
      by_cases h1 : w.display = "none" <;> by_cases h2 : w.display = "" <;>
      cases hl : w.loaded <;>
      simp [onlineSelectChange, toggleTardTest, toggleAPITest, clampTardboardPosition,
        clampTardTestPosition, clampAPITestPosition, bringWindowToFront, h1, h2, hl] <;>
      simp [hl] at hinv <;> simp [hinv]
  · simp [closeTardtestClick, toggleTardTest, clampTardTestPosition, bringWindowToFront]
  · cases hc : w.content.isEmpty <;>
      simp [checkPasswordTardtestShow, hc]
  · cases hc : w.content.isEmpty
    · simp [checkPasswordTardtestShow, hc]
      simp_all [List.isEmpty_iff]
    · simp [checkPasswordTardtestShow, hc]

/-- Witness for the amended claim C6 at a concrete state satisfying the
invariant. -/
theorem loaded_invariant_amended_witness :
    ((onlineSelectChange ⟨800, 600⟩ 2000 sampleHidden).2.loaded = true ↔
       (onlineSelectChange ⟨800, 600⟩ 2000 sampleHidden).2.content ≠ []) ∧
    (closeTardtestClick sampleHidden).content = [] ∧
    (toggleTardTest ⟨800, 600⟩ 2000 (closeTardtestClick sampleHidden)).2.content =
      ["tardtestIframe"] := by
  have h := loaded_invariant_amended ⟨800, 600⟩ 2000 sampleHidden
  exact ⟨(h.1 (by decide)).1, h.2.2.1.1, h.2.2.2.2.1⟩

/-- Claim C9, counterexample: toggleTardTest dereferences the window
element unconditionally, so with the element absent the operation raises a
TypeError instead of no-opping. -/
theorem missing_element_counterexample :
    toggleTardTestOpt ⟨800, 600⟩ 2000 none = Except.error "TypeError" := rfl

/-- Claim C9 as amended: only the focus wiring (setupWindowFocus) and the
unlock-gate paths (checkPassword) guard their element lookups and
silently no-op on a missing element, and the dropdown dispatch ignores an
unrecognized value; the toggle and clamp operations dereference their
elements unconditionally and raise a TypeError when the element is
absent. -/
theorem missing_element_amended (env : Env) (z : Int) (w : Win) (v : String)
    (h : v ≠ "tardboard") :
    toggleTardTestOpt env z none = Except.error "TypeError" ∧
    clampTardboardPositionOpt env none = Except.error "TypeError" ∧
    setupWindowFocus none = Except.ok false ∧
    checkPasswordTardtestOpt none = Except.ok none ∧
    onlineSelectDispatch env z v w = (z, w) := by
  refine ⟨rfl, rfl, rfl, rfl, ?_⟩
  simp [onlineSelectDispatch, h]

/-- Witness for the amended claim C9 at a concrete unrecognized dropdown
value. -/
theorem missing_element_amended_witness :
    toggleTardTestOpt ⟨800, 600⟩ 2000 none = Except.error "TypeError" ∧
    setupWindowFocus none = Except.ok false ∧
    onlineSelectDispatch ⟨800, 600⟩ 2000 "unknown" sampleHidden = (2000, sampleHidden) := by
  have h := missing_element_amended ⟨800, 600⟩ 2000 sampleHidden "unknown" (by decide)
  exact ⟨h.1, h.2.2.1, h.2.2.2.2⟩

end TardQuest
